import Mathlib

/-!
Shallow embedding of the melonDS RTC core (src/RTC.cpp) and verification of
the specification claims about it.  All machine bytes are modelled as `Nat`
with explicit `% 256` where the C++ `u8` arithmetic can wrap; the 32-bit
counters use `% 4294967296`.
-/

namespace RTC

/-- Embeds `BCD` (RTC.cpp): binary → packed BCD byte. -/
def BCD (val : Nat) : Nat :=
  (val % 10) ||| ((val / 10) <<< 4)

/-- Embeds `BCDIncrement` (RTC.cpp): `val++` with decimal carry correction on
each nibble, in `u8` arithmetic. -/
def BCDIncrement (val : Nat) : Nat :=
  let v1 := (val + 1) % 256
  let v2 := if 0x0A ≤ v1 &&& 0x0F then (v1 + 0x06) % 256 else v1
  if 0xA0 ≤ v2 &&& 0xF0 then (v2 + 0x60) % 256 else v2

/-- Embeds `BCDSanitize` (RTC.cpp): out-of-range or invalid-nibble values are
replaced by `vmin`. -/
def BCDSanitize (val vmin vmax : Nat) : Nat :=
  if val < vmin ∨ vmax < val then vmin
  else if 0x0A ≤ val &&& 0x0F then vmin
  else if 0xA0 ≤ val &&& 0xF0 then vmin
  else val

/-- Embeds `ScheduleTimer` (RTC.cpp).  Returns the `(delay, TimerError)` pair
produced by one invocation: `TimerError` is cleared when `first` is true, then
`sysclock = 33513982 + TimerError`, the scheduled delay is `sysclock >> 15`
and the new `TimerError` is `sysclock & 0x7FFF`. -/
def ScheduleTimer (first : Bool) (timerError : Nat) : Nat × Nat :=
  let e := if first then 0 else timerError
  let sysclock := 33513982 + e
  (sysclock >>> 15, sysclock &&& 0x7FFF)

/-- Delay returned by one ordinary (non-cold-start) reschedule. -/
def tickDelay (e : Nat) : Nat := (ScheduleTimer false e).1

/-- Error carried out of one ordinary reschedule. -/
def tickError (e : Nat) : Nat := (ScheduleTimer false e).2

/-- Error accumulator after `n` consecutive ordinary reschedules. -/
def errAfter : Nat → Nat → Nat
  | 0, e => e
  | n + 1, e => errAfter n (tickError e)

/-- Sum of the delays returned by `n` consecutive ordinary reschedules
starting from carried error `e`. -/
def delaySum : Nat → Nat → Nat
  | 0, _ => 0
  | n + 1, e => tickDelay e + delaySum n (tickError e)

/-- Embeds the `StateData` register file (RTC.h / RTC.cpp).  The seven-entry
`DateTime` array is spelled out field by field:
index 0 = year, 1 = month, 2 = day, 3 = day of week, 4 = hour (+PM flag in
bit 6), 5 = minute, 6 = second. -/
structure StateData where
  StatusReg1 : Nat
  StatusReg2 : Nat
  DateTime0 : Nat
  DateTime1 : Nat
  DateTime2 : Nat
  DateTime3 : Nat
  DateTime4 : Nat
  DateTime5 : Nat
  DateTime6 : Nat
  Alarm1a : Nat
  Alarm1b : Nat
  Alarm1c : Nat
  Alarm2a : Nat
  Alarm2b : Nat
  Alarm2c : Nat
  ClockAdjust : Nat
  FreeReg : Nat
  AlarmDate1a : Nat
  AlarmDate1b : Nat
  AlarmDate1c : Nat
  AlarmDate2a : Nat
  AlarmDate2b : Nat
  AlarmDate2c : Nat
  FOUT1 : Nat
  FOUT2 : Nat
  MinuteCount : Nat
  deriving Repr, DecidableEq

/-- Embeds `ResetState` (RTC.cpp): `memset(&State, 0, sizeof(State))` then
`DateTime[1] = 1; DateTime[2] = 1`. -/
def ResetState : StateData :=
  { StatusReg1 := 0, StatusReg2 := 0
    DateTime0 := 0, DateTime1 := 1, DateTime2 := 1, DateTime3 := 0
    DateTime4 := 0, DateTime5 := 0, DateTime6 := 0
    Alarm1a := 0, Alarm1b := 0, Alarm1c := 0
    Alarm2a := 0, Alarm2b := 0, Alarm2c := 0
    ClockAdjust := 0, FreeReg := 0
    AlarmDate1a := 0, AlarmDate1b := 0, AlarmDate1c := 0
    AlarmDate2a := 0, AlarmDate2b := 0, AlarmDate2c := 0
    FOUT1 := 0, FOUT2 := 0, MinuteCount := 0 }

/-- Embeds `DaysInMonth` (RTC.cpp), as a function of the BCD month byte
`DateTime[1]` and year byte `DateTime[0]`. -/
def DaysInMonthF (month year : Nat) : Nat :=
  if month = 0x01 ∨ month = 0x03 ∨ month = 0x05 ∨ month = 0x07 ∨
     month = 0x08 ∨ month = 0x10 ∨ month = 0x12 then 0x31
  else if month = 0x04 ∨ month = 0x06 ∨ month = 0x09 ∨ month = 0x11 then 0x30
  else if month = 0x02 then
    let y := (year &&& 0xF) + (year >>> 4) * 10
    if y &&& 3 = 0 then 0x29 else 0x28
  else 0

/-- `DaysInMonth` reading the register file. -/
def DaysInMonth (s : StateData) : Nat :=
  DaysInMonthF s.DateTime1 s.DateTime0

/-- Embeds `CountYear` (RTC.cpp). -/
def CountYear (s : StateData) : StateData :=
  { s with DateTime0 := BCDIncrement s.DateTime0 }

/-- Embeds `CountMonth` (RTC.cpp). -/
def CountMonth (s : StateData) : StateData :=
  let m := BCDIncrement s.DateTime1
  if 0x12 < m then CountYear { s with DateTime1 := 1 }
  else { s with DateTime1 := m }

/-- Embeds `CheckEndOfMonth` (RTC.cpp). -/
def CheckEndOfMonth (s : StateData) : StateData :=
  if DaysInMonth s < s.DateTime2 then CountMonth { s with DateTime2 := 1 }
  else s

/-- Embeds `CountDay` (RTC.cpp): advance the 0–6 day-of-week counter, BCD
increment the day and run the end-of-month check. -/
def CountDay (s : StateData) : StateData :=
  let dow := (s.DateTime3 + 1) % 256
  let s1 := { s with DateTime3 := if 7 ≤ dow then 0 else dow }
  CheckEndOfMonth { s1 with DateTime2 := BCDIncrement s1.DateTime2 }

/-- Embeds `CountHour` (RTC.cpp). -/
def CountHour (s : StateData) : StateData :=
  let hour := BCDIncrement (s.DateTime4 &&& 0x3F)
  let pm := s.DateTime4 &&& 0x40
  if s.StatusReg1 &&& 2 ≠ 0 then
    -- 24-hour mode
    let hp := if 0x24 ≤ hour then (0, CountDay s) else (hour, s)
    let pm2 := if 0x12 ≤ hp.1 then 0x40 else 0
    { hp.2 with DateTime4 := hp.1 ||| pm2 }
  else
    -- 12-hour mode
    if 0x12 ≤ hour then
      let s1 := if pm ≠ 0 then CountDay s else s
      { s1 with DateTime4 := 0 ||| (pm ^^^ 0x40) }
    else
      { s with DateTime4 := hour ||| pm }

/-- Embeds `CountMinute` (RTC.cpp). -/
def CountMinute (s : StateData) : StateData :=
  let s1 := { s with MinuteCount := (s.MinuteCount + 1) % 4294967296 }
  let m := BCDIncrement s1.DateTime5
  if 0x60 ≤ m then CountHour { s1 with DateTime5 := 0 }
  else { s1 with DateTime5 := m }

/-- Embeds `CountSecond` (RTC.cpp). -/
def CountSecond (s : StateData) : StateData :=
  let sec := BCDIncrement s.DateTime6
  if 0x60 ≤ sec then CountMinute { s with DateTime6 := 0 }
  else { s with DateTime6 := sec }

/-- Embeds `WriteDateTime` (RTC.cpp): route one written byte to the selected
date/time field, sanitizing it; a day write runs the end-of-month check. -/
def WriteDateTime (num val : Nat) (s : StateData) : StateData :=
  match num with
  | 1 => { s with DateTime0 := BCDSanitize val 0x00 0x99 }
  | 2 => { s with DateTime1 := BCDSanitize (val &&& 0x1F) 0x01 0x12 }
  | 3 => CheckEndOfMonth { s with DateTime2 := BCDSanitize (val &&& 0x3F) 0x01 0x31 }
  | 4 => { s with DateTime3 := BCDSanitize (val &&& 0x07) 0x00 0x06 }
  | 5 =>
    let hour := val &&& 0x3F
    let pm := val &&& 0x40
    if s.StatusReg1 &&& 2 ≠ 0 then
      -- 24-hour mode
      let h := BCDSanitize hour 0x00 0x23
      { s with DateTime4 := h ||| (if 0x12 ≤ h then 0x40 else 0) }
    else
      -- 12-hour mode
      { s with DateTime4 := BCDSanitize hour 0x00 0x11 ||| pm }
  | 6 => { s with DateTime5 := BCDSanitize (val &&& 0x7F) 0x00 0x59 }
  | 7 => { s with DateTime6 := BCDSanitize (val &&& 0x7F) 0x00 0x59 }
  | _ => s

/-- Embeds the module-level mutable state of RTC.cpp: the 16-bit control
register, the serial-session cursors and buffers, the current command, the
register file and the tick counters.  `consoleType` is passed to the
operations that consult `NDS::ConsoleType`. -/
structure RTCState where
  ioReg : Nat
  Input : Nat
  InputBit : Nat
  InputPos : Nat
  Output0 : Nat
  Output1 : Nat
  Output2 : Nat
  Output3 : Nat
  Output4 : Nat
  Output5 : Nat
  Output6 : Nat
  Output7 : Nat
  OutputBit : Nat
  OutputPos : Nat
  CurCmd : Nat
  State : StateData
  TimerError : Nat
  ClockCount : Nat
  deriving Repr, DecidableEq

/-- `Output[i]` of the 8-byte output buffer. -/
def OutputAt (r : RTCState) (i : Nat) : Nat :=
  match i with
  | 0 => r.Output0
  | 1 => r.Output1
  | 2 => r.Output2
  | 3 => r.Output3
  | 4 => r.Output4
  | 5 => r.Output5
  | 6 => r.Output6
  | 7 => r.Output7
  | _ => 0

/-- Embeds `CmdRead` (RTC.cpp): populate the output buffer from the register
group selected by `CurCmd`; reading status register 1 clears its
auto-clearing bits 4–7. -/
def CmdRead (consoleType : Nat) (r : RTCState) : RTCState :=
  if r.CurCmd &&& 0x0F = 0x06 then
    if r.CurCmd &&& 0x70 = 0x00 then
      { r with Output0 := r.State.StatusReg1,
               State := { r.State with StatusReg1 := r.State.StatusReg1 &&& 0x0F } }
    else if r.CurCmd &&& 0x70 = 0x40 then { r with Output0 := r.State.StatusReg2 }
    else if r.CurCmd &&& 0x70 = 0x20 then
      { r with Output0 := r.State.DateTime0, Output1 := r.State.DateTime1,
               Output2 := r.State.DateTime2, Output3 := r.State.DateTime3,
               Output4 := r.State.DateTime4, Output5 := r.State.DateTime5,
               Output6 := r.State.DateTime6 }
    else if r.CurCmd &&& 0x70 = 0x60 then
      { r with Output0 := r.State.DateTime4, Output1 := r.State.DateTime5,
               Output2 := r.State.DateTime6 }
    else if r.CurCmd &&& 0x70 = 0x10 then
      if r.State.StatusReg2 &&& 0x04 ≠ 0 then
        { r with Output0 := r.State.Alarm1a, Output1 := r.State.Alarm1b,
                 Output2 := r.State.Alarm1c }
      else { r with Output0 := r.State.Alarm1c }
    else if r.CurCmd &&& 0x70 = 0x50 then
      { r with Output0 := r.State.Alarm2a, Output1 := r.State.Alarm2b,
               Output2 := r.State.Alarm2c }
    else if r.CurCmd &&& 0x70 = 0x30 then { r with Output0 := r.State.ClockAdjust }
    else if r.CurCmd &&& 0x70 = 0x70 then { r with Output0 := r.State.FreeReg }
    else r
  else if r.CurCmd &&& 0x0F = 0x0E then
    if consoleType ≠ 1 then r
    else
      if r.CurCmd &&& 0x70 = 0x00 then
        { r with Output0 := (r.State.MinuteCount >>> 16) &&& 0xFF,
                 Output1 := (r.State.MinuteCount >>> 8) &&& 0xFF,
                 Output2 := r.State.MinuteCount &&& 0xFF }
      else if r.CurCmd &&& 0x70 = 0x40 then { r with Output0 := r.State.FOUT1 }
      else if r.CurCmd &&& 0x70 = 0x20 then { r with Output0 := r.State.FOUT2 }
      else if r.CurCmd &&& 0x70 = 0x10 then
        { r with Output0 := r.State.AlarmDate1a, Output1 := r.State.AlarmDate1b,
                 Output2 := r.State.AlarmDate1c }
      else if r.CurCmd &&& 0x70 = 0x50 then
        { r with Output0 := r.State.AlarmDate2a, Output1 := r.State.AlarmDate2b,
                 Output2 := r.State.AlarmDate2c }
      else r
  else r

/-- The 12-hour → 24-hour reinterpretation of a stored hour value performed
by `CmdWrite` (RTC.cpp) when the mode bit changes: if the PM flag was set,
add BCD 0x12 with decimal carry correction. -/
def hourTo24 (hour pm : Nat) : Nat :=
  if pm ≠ 0 then
    let h := hour + 0x12
    if 0x0A ≤ h &&& 0x0F then h + 0x06 else h
  else hour

/-- The 24-hour → 12-hour reinterpretation of a stored hour value performed
by `CmdWrite` (RTC.cpp) when the mode bit changes: returns the new
`(hour, pm)` pair, subtracting BCD 0x12 with decimal borrow correction for
hours ≥ 0x12. -/
def hourTo12 (hour : Nat) : Nat × Nat :=
  if 0x12 ≤ hour then
    ((let h := hour - 0x12
      if 0x0A ≤ h &&& 0x0F then h - 0x06 else h), 0x40)
  else (hour, 0)

/-- The status-register-1 write body of `CmdWrite` (RTC.cpp), case
`CurCmd & 0x70 == 0x00`, `InputPos == 1`: an optional full state reset (bit
0), masked update of bits 1–3, and the hour-field reinterpretation when the
12/24-hour mode bit (bit 1) changed. -/
def StatusReg1Write (val : Nat) (s : StateData) : StateData :=
  let oldval := s.StatusReg1
  let s1 := if val &&& 1 ≠ 0 then ResetState else s
  let s2 := { s1 with StatusReg1 := (s1.StatusReg1 &&& 0xF0) ||| (val &&& 0x0E) }
  if (s2.StatusReg1 ^^^ oldval) &&& 2 ≠ 0 then
    -- 12/24-hour mode changed: reinterpret the hour field
    let hour := s2.DateTime4 &&& 0x3F
    let pm := s2.DateTime4 &&& 0x40
    if s2.StatusReg1 &&& 2 ≠ 0 then
      { s2 with DateTime4 := BCDSanitize (hourTo24 hour pm) 0x00 0x23 ||| pm }
    else
      { s2 with DateTime4 := BCDSanitize (hourTo12 hour).1 0x00 0x11 ||| (hourTo12 hour).2 }
  else s2

/-- The register-file effect of `CmdWrite` (RTC.cpp): route one delivered
data byte (at byte index `inputPos` of the session) to the register group
selected by `curCmd`.  The C++ function mutates only the `State` register
file, so it is embedded as a `StateData` transformer. -/
def CmdWriteData (consoleType val curCmd inputPos : Nat) (s : StateData) : StateData :=
  if curCmd &&& 0x0F = 0x06 then
    if curCmd &&& 0x70 = 0x00 then
      if inputPos = 1 then StatusReg1Write val s
      else s
    else if curCmd &&& 0x70 = 0x40 then
      if inputPos = 1 then { s with StatusReg2 := val }
      else s
    else if curCmd &&& 0x70 = 0x20 then
      if inputPos ≤ 7 then WriteDateTime inputPos val s
      else s
    else if curCmd &&& 0x70 = 0x60 then
      if inputPos ≤ 3 then WriteDateTime (inputPos + 4) val s
      else s
    else if curCmd &&& 0x70 = 0x10 then
      if s.StatusReg2 &&& 0x04 ≠ 0 then
        match inputPos with
        | 1 => { s with Alarm1a := val }
        | 2 => { s with Alarm1b := val }
        | 3 => { s with Alarm1c := val }
        | _ => s
      else
        if inputPos = 1 then { s with Alarm1c := val }
        else s
    else if curCmd &&& 0x70 = 0x50 then
      match inputPos with
      | 1 => { s with Alarm2a := val }
      | 2 => { s with Alarm2b := val }
      | 3 => { s with Alarm2c := val }
      | _ => s
    else if curCmd &&& 0x70 = 0x30 then
      if inputPos = 1 then { s with ClockAdjust := val }
      else s
    else if curCmd &&& 0x70 = 0x70 then
      if inputPos = 1 then { s with FreeReg := val }
      else s
    else s
  else if curCmd &&& 0x0F = 0x0E then
    if consoleType ≠ 1 then s
    else
      if curCmd &&& 0x70 = 0x40 then
        if inputPos = 1 then { s with FOUT1 := val }
        else s
      else if curCmd &&& 0x70 = 0x20 then
        if inputPos = 1 then { s with FOUT2 := val }
        else s
      else if curCmd &&& 0x70 = 0x10 then
        match inputPos with
        | 1 => { s with AlarmDate1a := val }
        | 2 => { s with AlarmDate1b := val }
        | 3 => { s with AlarmDate1c := val }
        | _ => s
      else if curCmd &&& 0x70 = 0x50 then
        match inputPos with
        | 1 => { s with AlarmDate2a := val }
        | 2 => { s with AlarmDate2b := val }
        | 3 => { s with AlarmDate2c := val }
        | _ => s
      else s
  else s

/-- Embeds `CmdWrite` (RTC.cpp): it mutates only the register file, via
`CmdWriteData` with the session's current command and byte index. -/
def CmdWrite (consoleType val : Nat) (r : RTCState) : RTCState :=
  { r with State := CmdWriteData consoleType val r.CurCmd r.InputPos r.State }

/-- The 16-entry lookup table of `ByteIn` (RTC.cpp) used to normalize a
bit-reversed base-class command byte `0x6_`. -/
def rev6 (i : Nat) : Nat :=
  match i with
  | 0 => 0x06
  | 1 => 0x86
  | 2 => 0x46
  | 3 => 0xC6
  | 4 => 0x26
  | 5 => 0xA6
  | 6 => 0x66
  | 7 => 0xE6
  | 8 => 0x16
  | 9 => 0x96
  | 10 => 0x56
  | 11 => 0xD6
  | 12 => 0x36
  | 13 => 0xB6
  | 14 => 0x76
  | _ => 0xF6

/-- The 16-entry lookup table of `ByteIn` (RTC.cpp) used to normalize a
bit-reversed extended-class command byte `0x7_` on the DSi variant. -/
def revE (i : Nat) : Nat :=
  match i with
  | 0 => 0x0E
  | 1 => 0x8E
  | 2 => 0x4E
  | 3 => 0xCE
  | 4 => 0x2E
  | 5 => 0xAE
  | 6 => 0x6E
  | 7 => 0xEE
  | 8 => 0x1E
  | 9 => 0x9E
  | 10 => 0x5E
  | 11 => 0xDE
  | 12 => 0x3E
  | 13 => 0xBE
  | 14 => 0x7E
  | _ => 0xFE

/-- The command normalization performed by `ByteIn` (RTC.cpp) on the first
byte of a session: a `0x6_` byte is looked up in `rev6`, and on the DSi
variant a resulting `0x7_` byte other than `0x76`/`0x77` is looked up in
`revE`. -/
def byteInCmd (consoleType val : Nat) : Nat :=
  let c1 := if val &&& 0xF0 = 0x60 then rev6 (val &&& 0xF) else val
  if consoleType = 1 ∧ c1 &&& 0xF0 = 0x70 ∧ c1 &&& 0xFE ≠ 0x76 then revE (c1 &&& 0xF)
  else c1

/-- Embeds `ByteIn` (RTC.cpp): the first byte of a session is normalized and
latched as `CurCmd` (a read command immediately populates the output buffer);
every later byte is handed to `CmdWrite`. -/
def ByteIn (consoleType val : Nat) (r : RTCState) : RTCState :=
  if r.InputPos = 0 then
    let c := byteInCmd consoleType val
    let r1 := { r with CurCmd := c }
    if c &&& 0x80 ≠ 0 then CmdRead consoleType r1 else r1
  else CmdWrite consoleType val r

/-- Embeds `ClockTimer` (RTC.cpp): advance the tick counter, count one second
every 32768 ticks, and reschedule; the returned `Nat` is the delay passed to
the host scheduler. -/
def ClockTimer (r : RTCState) : RTCState × Nat :=
  let cc := (r.ClockCount + 1) % 4294967296
  let st := if cc &&& 0x7FFF = 0 then CountSecond r.State else r.State
  let d := ScheduleTimer false r.TimerError
  ({ r with ClockCount := cc, State := st, TimerError := d.2 }, d.1)

/-- Embeds `Write` (RTC.cpp): one host write to the 16-bit control register.
A byte-granularity write keeps the previous high byte.  A 0→1 chip-select
transition resets the session; while selected, a clock-low write-direction
access latches one input bit (delivering a byte every 8 bits) and a
read-direction access reflects one output bit into bit 0 of the register.
`EffVal` is the effective 16-bit value after the byte-granularity merge
(`if (byte) val |= IO & 0xFF00`). -/
def EffVal (val0 : Nat) (byteFlag : Bool) (r : RTCState) : Nat :=
  if byteFlag then (val0 &&& 0xFFFF) ||| (r.ioReg &&& 0xFF00)
  else val0 &&& 0xFFFF

/-- The protocol part of `Write` (RTC.cpp), acting on the effective 16-bit
value `val`: session reset on the 0→1 chip-select transition, and bit
transfer on a clock-low access while selected. -/
def WriteProto (consoleType val : Nat) (r : RTCState) : RTCState :=
  if val &&& 0x0004 ≠ 0 then
      if r.ioReg &&& 0x0004 = 0 then
        -- start transfer
        { r with Input := 0, InputBit := 0, InputPos := 0,
                 Output0 := 0, Output1 := 0, Output2 := 0, Output3 := 0,
                 Output4 := 0, Output5 := 0, Output6 := 0, Output7 := 0,
                 OutputBit := 0, OutputPos := 0 }
      else if val &&& 0x0002 = 0 then -- clock low
        if val &&& 0x0010 ≠ 0 then
          -- write
          let inp := if val &&& 0x0001 ≠ 0 then r.Input ||| (1 <<< r.InputBit)
                     else r.Input
          if 8 ≤ r.InputBit + 1 then
            let r2 := ByteIn consoleType inp { r with Input := inp, InputBit := 0 }
            { r2 with Input := 0, InputPos := r2.InputPos + 1 }
          else { r with Input := inp, InputBit := r.InputBit + 1 }
        else
          -- read
          let r2 := if OutputAt r r.OutputPos &&& (1 <<< r.OutputBit) ≠ 0 then
                      { r with ioReg := r.ioReg ||| 0x0001 }
                    else { r with ioReg := r.ioReg &&& 0xFFFE }
          if 8 ≤ r.OutputBit + 1 then
            { r2 with OutputBit := 0,
                      OutputPos := if r.OutputPos < 7 then r.OutputPos + 1
                                   else r.OutputPos }
          else { r2 with OutputBit := r.OutputBit + 1 }
      else r
  else r

/-- One host write to the control register (RTC.cpp `Write`): the protocol
step on the effective value, then the raw register latch (a read-direction
access keeps the reflected data bit in bit 0). -/
def Write (consoleType val0 : Nat) (byteFlag : Bool) (r : RTCState) : RTCState :=
  let val := EffVal val0 byteFlag r
  let r1 := WriteProto consoleType val r
  if val &&& 0x0010 ≠ 0 then { r1 with ioReg := val }
  else { r1 with ioReg := (r1.ioReg &&& 0x0001) ||| (val &&& 0xFFFE) }

/-- The register file right after `Init` (RTC.cpp): `ResetState` with the
power-was-off indicator set. -/
def InitState : StateData :=
  { ResetState with StatusReg1 := 0x80 }

/-- The module state right after `Init` and `Reset` (RTC.cpp): zeroed serial
session and counters, `ScheduleTimer(true)` armed. -/
def initRTC : RTCState :=
  { ioReg := 0, Input := 0, InputBit := 0, InputPos := 0,
    Output0 := 0, Output1 := 0, Output2 := 0, Output3 := 0,
    Output4 := 0, Output5 := 0, Output6 := 0, Output7 := 0,
    OutputBit := 0, OutputPos := 0, CurCmd := 0,
    State := InitState,
    TimerError := (ScheduleTimer true 0).2, ClockCount := 0 }

/-- Embeds `Reset` (RTC.cpp): clear the serial session (`OutputBit` is left
alone, as in the source) and restart the timer cold. -/
def ResetRTC (r : RTCState) : RTCState :=
  { r with Input := 0, InputBit := 0, InputPos := 0,
           Output0 := 0, Output1 := 0, Output2 := 0, Output3 := 0,
           Output4 := 0, Output5 := 0, Output6 := 0, Output7 := 0,
           OutputPos := 0, CurCmd := 0, ClockCount := 0,
           TimerError := (ScheduleTimer true r.TimerError).2 }

/-- The module states reachable from initialization through the public entry
points: control-register writes (any console variant, any value, word or
byte granularity), timer ticks, and resets. -/
inductive Reachable : RTCState → Prop
  | init : Reachable initRTC
  | write (consoleType val : Nat) (b : Bool) {s : RTCState} :
      Reachable s → Reachable (Write consoleType val b s)
  | tick {s : RTCState} : Reachable s → Reachable (ClockTimer s).1
  | reset {s : RTCState} : Reachable s → Reachable (ResetRTC s)

/-- Two-digit decimal decoding of a packed BCD byte, as the source computes
it: `(val & 0xF) + ((val >> 4) * 10)`. -/
def decodeBCD (v : Nat) : Nat := (v &&& 0xF) + (v >>> 4) * 10

/-- Full 8-bit bit reversal (bit i ↔ bit 7−i). -/
def bitrev8 (v : Nat) : Nat :=
  ((v >>> 0) &&& 1) <<< 7 ||| ((v >>> 1) &&& 1) <<< 6 ||| ((v >>> 2) &&& 1) <<< 5 |||
  ((v >>> 3) &&& 1) <<< 4 ||| ((v >>> 4) &&& 1) <<< 3 ||| ((v >>> 5) &&& 1) <<< 2 |||
  ((v >>> 6) &&& 1) <<< 1 ||| ((v >>> 7) &&& 1)

/-- The calendar part of the register file: (year, month, day, day-of-week),
i.e. `DateTime[0..3]`. -/
def calPart (s : StateData) : Nat × Nat × Nat × Nat :=
  (s.DateTime0, s.DateTime1, s.DateTime2, s.DateTime3)

/-- `n` consecutive hour-level carries. -/
def iterCountHour : Nat → StateData → StateData
  | 0, s => s
  | n + 1, s => iterCountHour n (CountHour s)


/-- A register file holding BCD hour 09 with the PM flag (byte 0x49) in
12-hour mode (`StatusReg1` bit 1 clear). -/
def c2state : StateData := { ResetState with DateTime4 := 0x49 }

/-- A session about to deliver the first data byte of a status-register-1
write command (`CurCmd = 0x06`, `InputPos = 1`) over `c2state`. -/
def c2rtc : RTCState :=
  { initRTC with CurCmd := 0x06, InputPos := 1, State := c2state }

/-- A register file with the power-on flag (bit 7 of status register 1)
set. -/
def c3state : StateData := { ResetState with StatusReg1 := 0x80 }

/-- A session about to deliver the first data byte of a status-register-1
write command over the power-on initial register file. -/
def c3rtc : RTCState := { initRTC with CurCmd := 0x06, InputPos := 1 }

/-- A session about to deliver the third data byte (the day field) of a
date/time write command (`CurCmd = 0x26`), with the register file set to
April (month byte 0x04). -/
def c6state : StateData := { ResetState with DateTime1 := 0x04 }

def c6rtc : RTCState :=
  { initRTC with CurCmd := 0x26, InputPos := 3, State := c6state }

/-- The session state after the read-status-2 command byte 0xC6 has been
decoded, about to receive a further data byte. -/
def c10mid : RTCState := { ByteIn 0 0xC6 initRTC with InputPos := 1 }

set_option maxRecDepth 20000
set_option maxHeartbeats 4000000

theorem tickDelay_eq (e : Nat) : tickDelay e = (33513982 + e) / 32768 := by
  simp [tickDelay, ScheduleTimer, Nat.shiftRight_eq_div_pow]

theorem tickError_eq (e : Nat) : tickError e = (33513982 + e) % 32768 := by
  have h := Nat.and_pow_two_sub_one_eq_mod (33513982 + e) 15
  simpa [tickError, ScheduleTimer] using h

theorem delaySum_invariant (n : Nat) :
    ∀ e, 32768 * delaySum n e + errAfter n e = n * 33513982 + e := by
  induction n with
  | zero => intro e; simp [delaySum, errAfter]
  | succ n ih =>
    intro e
    have hde : 32768 * tickDelay e + tickError e = 33513982 + e := by
      rw [tickDelay_eq, tickError_eq]
      exact Nat.div_add_mod (33513982 + e) 32768
    calc 32768 * delaySum (n + 1) e + errAfter (n + 1) e
        = 32768 * tickDelay e +
            (32768 * delaySum n (tickError e) + errAfter n (tickError e)) := by
          simp [delaySum, errAfter]; ring
      _ = 32768 * tickDelay e + (n * 33513982 + tickError e) := by rw [ih]
      _ = (32768 * tickDelay e + tickError e) + n * 33513982 := by ring
      _ = (33513982 + e) + n * 33513982 := by rw [hde]
      _ = (n + 1) * 33513982 + e := by ring

theorem errAfter_eq (n : Nat) :
    ∀ e, e < 32768 → errAfter n e = (e + n * 33513982) % 32768 := by
  induction n with
  | zero => intro e he; simp [errAfter, Nat.mod_eq_of_lt he]
  | succ n ih =>
    intro e he
    have hlt : tickError e < 32768 := by
      rw [tickError_eq]; exact Nat.mod_lt _ (by norm_num)
    calc errAfter (n + 1) e = errAfter n (tickError e) := rfl
      _ = (tickError e + n * 33513982) % 32768 := ih _ hlt
      _ = ((33513982 + e) % 32768 + n * 33513982) % 32768 := by rw [tickError_eq]
      _ = ((33513982 + e) + n * 33513982) % 32768 := Nat.mod_add_mod _ _ _
      _ = (e + (n + 1) * 33513982) % 32768 := by ring_nf

/-- C1: for every carried error value `e` in the accumulator's range
`[0, 0x7FFF]`, the sum of the delays returned by 32768 consecutive
reschedules (each computing `delay = (33513982 + e) >> 15` and carrying
`(33513982 + e) & 0x7FFF` into the next) is exactly 33513982 host cycles —
the host-cycle count of one second at 32768 Hz, with no net rounding loss or
gain.  Moreover the accumulator is zeroed exactly on a cold start
(`first = true`, which ignores the carried value), while an ordinary
reschedule (`first = false`) feeds the carried value through unchanged. -/
theorem scheduleTimer_second_exact (e : Nat) (he : e ≤ 0x7FFF) :
    delaySum 32768 e = 33513982 ∧
    ScheduleTimer true e = ScheduleTimer true 0 ∧
    ScheduleTimer false e = ((33513982 + e) / 32768, (33513982 + e) % 32768) := by
  refine ⟨?_, rfl, ?_⟩
  · have hinv := delaySum_invariant 32768 e
    have herr : errAfter 32768 e = e := by
      rw [errAfter_eq 32768 e (by omega)]
      calc (e + 32768 * 33513982) % 32768 = e % 32768 :=
            Nat.add_mul_mod_self_left e 32768 33513982
        _ = e := Nat.mod_eq_of_lt (by omega)
    rw [herr] at hinv
    omega
  · have h1 := tickDelay_eq e
    have h2 := tickError_eq e
    simp only [tickDelay, tickError] at h1 h2
    rw [Prod.ext_iff]
    exact ⟨h1, h2⟩

/-- Witness for C1 at the concrete carried error 12345. -/
theorem scheduleTimer_second_exact_witness :
    (12345 ≤ 0x7FFF) ∧ delaySum 32768 12345 = 33513982 :=
  ⟨by decide, (scheduleTimer_second_exact 12345 (by decide)).1⟩

theorem CmdRead_keep (ct : Nat) (r : RTCState) :
    (CmdRead ct r).InputPos = r.InputPos ∧ (CmdRead ct r).OutputPos = r.OutputPos ∧
    (CmdRead ct r).OutputBit = r.OutputBit ∧ (CmdRead ct r).CurCmd = r.CurCmd ∧
    (CmdRead ct r).ioReg = r.ioReg ∧ (CmdRead ct r).Input = r.Input ∧
    (CmdRead ct r).InputBit = r.InputBit := by
  unfold CmdRead
  dsimp only
  repeat' split
  all_goals exact ⟨rfl, rfl, rfl, rfl, rfl, rfl, rfl⟩

theorem ByteIn_keep (ct v : Nat) (r : RTCState) :
    (ByteIn ct v r).InputPos = r.InputPos ∧ (ByteIn ct v r).OutputPos = r.OutputPos ∧
    (ByteIn ct v r).OutputBit = r.OutputBit ∧ (ByteIn ct v r).ioReg = r.ioReg ∧
    (ByteIn ct v r).Input = r.Input ∧ (ByteIn ct v r).InputBit = r.InputBit := by
  unfold ByteIn
  by_cases h0 : r.InputPos = 0
  · rw [if_pos h0]
    by_cases hb : byteInCmd ct v &&& 0x80 ≠ 0
    · show ((if byteInCmd ct v &&& 0x80 ≠ 0 then CmdRead ct { r with CurCmd := byteInCmd ct v }
             else { r with CurCmd := byteInCmd ct v }).InputPos = r.InputPos ∧ _)
      rw [if_pos hb]
      obtain ⟨k1, k2, k3, k4, k5, k6, k7⟩ := CmdRead_keep ct { r with CurCmd := byteInCmd ct v }
      exact ⟨k1, k2, k3, k5, k6, k7⟩
    · show ((if byteInCmd ct v &&& 0x80 ≠ 0 then CmdRead ct { r with CurCmd := byteInCmd ct v }
             else { r with CurCmd := byteInCmd ct v }).InputPos = r.InputPos ∧ _)
      rw [if_neg hb]
      exact ⟨rfl, rfl, rfl, rfl, rfl, rfl⟩
  · rw [if_neg h0]
    exact ⟨rfl, rfl, rfl, rfl, rfl, rfl⟩

/-- C5: for every valid BCD year byte, February's day count from the
day-in-month lookup is BCD 0x29 exactly when the two-digit decimal-decoded
year is divisible by 4 and BCD 0x28 otherwise; in particular year 0x24 gives
29 days and 0x23 gives 28; every other month follows the standard
month-length table (31 days for Jan/Mar/May/Jul/Aug/Oct/Dec, 30 for
Apr/Jun/Sep/Nov), independently of the year. -/
theorem daysInMonth_spec (y : Nat) (hy : y ≤ 0x99) (hnib : y &&& 0x0F ≤ 9) :
    (DaysInMonthF 0x02 y = 0x29 ↔ decodeBCD y % 4 = 0) ∧
    (DaysInMonthF 0x02 y = 0x28 ↔ ¬ decodeBCD y % 4 = 0) ∧
    DaysInMonthF 0x02 0x24 = 0x29 ∧ DaysInMonthF 0x02 0x23 = 0x28 ∧
    DaysInMonthF 0x01 y = 0x31 ∧ DaysInMonthF 0x03 y = 0x31 ∧
    DaysInMonthF 0x05 y = 0x31 ∧ DaysInMonthF 0x07 y = 0x31 ∧
    DaysInMonthF 0x08 y = 0x31 ∧ DaysInMonthF 0x10 y = 0x31 ∧
    DaysInMonthF 0x12 y = 0x31 ∧ DaysInMonthF 0x04 y = 0x30 ∧
    DaysInMonthF 0x06 y = 0x30 ∧ DaysInMonthF 0x09 y = 0x30 ∧
    DaysInMonthF 0x11 y = 0x30 := by
  have hfeb : ∀ z ≤ 0x99, z &&& 0x0F ≤ 9 →
      ((DaysInMonthF 0x02 z = 0x29 ↔ decodeBCD z % 4 = 0) ∧
       (DaysInMonthF 0x02 z = 0x28 ↔ ¬ decodeBCD z % 4 = 0)) := by decide
  obtain ⟨h1, h2⟩ := hfeb y hy hnib
  exact ⟨h1, h2, by decide, by decide, rfl, rfl, rfl, rfl, rfl, rfl, rfl,
         rfl, rfl, rfl, rfl⟩

/-- Witness for C5 at the concrete year byte 0x24. -/
theorem daysInMonth_spec_witness :
    (0x24 ≤ 0x99 ∧ 0x24 &&& 0x0F ≤ 9) ∧ DaysInMonthF 0x02 0x24 = 0x29 :=
  ⟨by decide, (daysInMonth_spec 0x24 (by decide) (by decide)).2.2.1⟩

/-- C7: for every byte and every (min, max) bound pair used by the write
path, `BCDSanitize` returns `min` exactly when the byte's decimal-decoded
form lies outside the decoded `[min, max]` range or either nibble exceeds 9,
and returns the byte unchanged otherwise; and every date/time field write
routes its (masked) byte through `BCDSanitize` with that field's bounds, so
invalid writes are silently clamped to the field minimum. -/
theorem bcdSanitize_clamp_spec (v : Nat) (hv : v ≤ 255) :
    (BCDSanitize v 0x00 0x99 =
       (if decodeBCD v < decodeBCD 0x00 ∨ decodeBCD 0x99 < decodeBCD v ∨
           9 < v &&& 0xF ∨ 9 < v >>> 4 then 0x00 else v) ∧
     BCDSanitize v 0x01 0x12 =
       (if decodeBCD v < decodeBCD 0x01 ∨ decodeBCD 0x12 < decodeBCD v ∨
           9 < v &&& 0xF ∨ 9 < v >>> 4 then 0x01 else v) ∧
     BCDSanitize v 0x01 0x31 =
       (if decodeBCD v < decodeBCD 0x01 ∨ decodeBCD 0x31 < decodeBCD v ∨
           9 < v &&& 0xF ∨ 9 < v >>> 4 then 0x01 else v) ∧
     BCDSanitize v 0x00 0x06 =
       (if decodeBCD v < decodeBCD 0x00 ∨ decodeBCD 0x06 < decodeBCD v ∨
           9 < v &&& 0xF ∨ 9 < v >>> 4 then 0x00 else v) ∧
     BCDSanitize v 0x00 0x23 =
       (if decodeBCD v < decodeBCD 0x00 ∨ decodeBCD 0x23 < decodeBCD v ∨
           9 < v &&& 0xF ∨ 9 < v >>> 4 then 0x00 else v) ∧
     BCDSanitize v 0x00 0x11 =
       (if decodeBCD v < decodeBCD 0x00 ∨ decodeBCD 0x11 < decodeBCD v ∨
           9 < v &&& 0xF ∨ 9 < v >>> 4 then 0x00 else v) ∧
     BCDSanitize v 0x00 0x59 =
       (if decodeBCD v < decodeBCD 0x00 ∨ decodeBCD 0x59 < decodeBCD v ∨
           9 < v &&& 0xF ∨ 9 < v >>> 4 then 0x00 else v)) ∧
    (∀ s : StateData,
      (WriteDateTime 1 v s).DateTime0 = BCDSanitize v 0x00 0x99 ∧
      (WriteDateTime 2 v s).DateTime1 = BCDSanitize (v &&& 0x1F) 0x01 0x12 ∧
      (WriteDateTime 4 v s).DateTime3 = BCDSanitize (v &&& 0x07) 0x00 0x06 ∧
      (WriteDateTime 6 v s).DateTime5 = BCDSanitize (v &&& 0x7F) 0x00 0x59 ∧
      (WriteDateTime 7 v s).DateTime6 = BCDSanitize (v &&& 0x7F) 0x00 0x59 ∧
      (s.StatusReg1 &&& 2 = 0 →
        (WriteDateTime 5 v s).DateTime4 =
          BCDSanitize (v &&& 0x3F) 0x00 0x11 ||| (v &&& 0x40)) ∧
      (s.StatusReg1 &&& 2 ≠ 0 →
        (WriteDateTime 5 v s).DateTime4 =
          BCDSanitize (v &&& 0x3F) 0x00 0x23 |||
            (if 0x12 ≤ BCDSanitize (v &&& 0x3F) 0x00 0x23 then 0x40 else 0))) := by
  constructor
  · revert hv v
    decide
  · intro s
    refine ⟨rfl, rfl, rfl, rfl, rfl, ?_, ?_⟩
    · intro hm
      simp [WriteDateTime, hm]
    · intro hm
      simp [WriteDateTime, hm]

/-- Witness for C7 at the concrete byte 0x1F: nibble invalid, so the day
write is clamped to the field minimum 1. -/
theorem bcdSanitize_clamp_spec_witness :
    (0x1F ≤ 255) ∧
    BCDSanitize 0x1F 0x01 0x31 =
      (if decodeBCD 0x1F < decodeBCD 0x01 ∨ decodeBCD 0x31 < decodeBCD 0x1F ∨
          9 < 0x1F &&& 0xF ∨ 9 < 0x1F >>> 4 then 0x01 else 0x1F) :=
  ⟨by decide, (bcdSanitize_clamp_spec 0x1F (by decide)).1.2.2.1⟩

/-- C8: the two 16-entry lookup tables of `ByteIn` are exactly the 8-bit
bit-reversal of the `0x6_` (base class) and `0x7_` (extended class) command
bytes; every base-class command byte (low nibble 6) is accepted unchanged
and its bit-reversed form normalizes to the same command, for both console
variants; every extended-set command byte (low nibble 0xE, register group in
the handled extended set) is likewise accepted in natural or bit-reversed
form on the DSi variant, normalizing to the same register group and
direction. -/
theorem byteIn_bit_reversal (ct v : Nat) (hct : ct ≤ 1) (hv : v ≤ 255) :
    (∀ i ≤ 15, rev6 i = bitrev8 (0x60 ||| i) ∧ revE i = bitrev8 (0x70 ||| i)) ∧
    (v &&& 0x0F = 0x06 → byteInCmd ct v = v ∧ byteInCmd ct (bitrev8 v) = v) ∧
    (v &&& 0x0F = 0x0E →
      (v &&& 0x70 = 0x00 ∨ v &&& 0x70 = 0x10 ∨ v &&& 0x70 = 0x20 ∨
       v &&& 0x70 = 0x40 ∨ v &&& 0x70 = 0x50) →
      byteInCmd 1 v = v ∧ byteInCmd 1 (bitrev8 v) = v) ∧
    (∀ r : RTCState, r.InputPos = 0 → (ByteIn ct v r).CurCmd = byteInCmd ct v) := by
  refine ⟨?_, ?_, ?_, ?_⟩
  · decide
  · revert hv
    revert v
    revert hct
    revert ct
    decide
  · revert hv
    revert v
    decide
  · intro r hr
    unfold ByteIn
    rw [if_pos hr]
    show (if byteInCmd ct v &&& 0x80 ≠ 0 then CmdRead ct { r with CurCmd := byteInCmd ct v }
          else { r with CurCmd := byteInCmd ct v }).CurCmd = byteInCmd ct v
    by_cases hb : byteInCmd ct v &&& 0x80 ≠ 0
    · rw [if_pos hb]
      exact (CmdRead_keep ct { r with CurCmd := byteInCmd ct v }).2.2.2.1
    · rw [if_neg hb]

/-- Witness for C8 at the bit-reversed form 0x64 of the read-date/time
command 0x26. -/
theorem byteIn_bit_reversal_witness :
    (1 ≤ 1 ∧ 0x26 ≤ 255 ∧ 0x26 &&& 0x0F = 0x06) ∧ byteInCmd 1 (bitrev8 0x26) = 0x26 :=
  ⟨by decide, ((byteIn_bit_reversal 1 0x26 (by decide) (by decide)).2.1 (by decide)).2⟩


/-- C2 counterexample: with stored hour byte 0x49 (BCD hour 09, PM flag) in
12-hour mode, a status-register-1 write of 0x02 (switch to 24-hour mode)
stores hour byte 0x61 — not 0x21 as the claim states: the conversion ORs the
old PM bit (0x40) back into the converted hour. -/
theorem statusWrite_hour_counterexample :
    (StatusReg1Write 0x02 c2state).DateTime4 = 0x61 ∧
    ¬ (StatusReg1Write 0x02 c2state).DateTime4 = 0x21 ∧
    c2state.StatusReg1 &&& 2 = 0 ∧ c2state.DateTime4 = 0x49 ∧
    (CmdWrite 0 0x02 c2rtc).State.DateTime4 = 0x61 :=
  ⟨by decide, by decide, by decide, by decide, by decide⟩

/-- C2 (amended): toggling the 12/24-hour mode bit in a status-register-1
write immediately reinterprets the hour field — switching to 24-hour mode
BCD-adds 0x12 (with decimal carry correction) to a PM hour and re-validates
against [0x00, 0x23]; switching to 12-hour mode BCD-subtracts 0x12 from
hours ≥ 0x12 and re-validates against [0x00, 0x11] — but the stored hour
byte keeps the PM indicator bit, so BCD 0x09+PM becomes stored byte 0x61
(hour digits 0x21, i.e. 21:00, with bit 6 still set), not 0x21. -/
theorem statusWrite_hour_mode_conversion (ct val : Nat) (r : RTCState)
    (hpos : r.InputPos = 1) (hcls : r.CurCmd &&& 0x0F = 0x06)
    (hgrp : r.CurCmd &&& 0x70 = 0x00) (hnr : val &&& 1 = 0) :
    (CmdWrite ct val r).State = StatusReg1Write val r.State ∧
    (r.State.StatusReg1 &&& 2 = 0 → val &&& 2 ≠ 0 →
      (StatusReg1Write val r.State).DateTime4 =
        BCDSanitize (hourTo24 (r.State.DateTime4 &&& 0x3F) (r.State.DateTime4 &&& 0x40))
            0x00 0x23 ||| (r.State.DateTime4 &&& 0x40)) ∧
    (r.State.StatusReg1 &&& 2 ≠ 0 → val &&& 2 = 0 →
      (StatusReg1Write val r.State).DateTime4 =
        BCDSanitize (hourTo12 (r.State.DateTime4 &&& 0x3F)).1 0x00 0x11 |||
          (hourTo12 (r.State.DateTime4 &&& 0x3F)).2) ∧
    hourTo24 0x09 0x40 = 0x21 ∧
    (StatusReg1Write 0x02 c2state).DateTime4 = 0x21 ||| 0x40 := by
  have hsr : ∀ x : Nat, ((x &&& 0xF0) ||| (val &&& 0x0E)) &&& 2 = val &&& 2 := by
    intro x
    rw [Nat.and_distrib_right, Nat.and_assoc, Nat.and_assoc,
        (by decide : (0xF0 : Nat) &&& 2 = 0), (by decide : (0x0E : Nat) &&& 2 = 2)]
    simp
  refine ⟨?_, ?_, ?_, by decide, by decide⟩
  · simp [CmdWrite, CmdWriteData, hcls, hgrp, hpos]
  · intro hm hv
    have htog : ((r.State.StatusReg1 &&& 0xF0 ||| (val &&& 0x0E)) ^^^ r.State.StatusReg1) &&& 2 ≠ 0 := by
      rw [Nat.and_xor_distrib_right, hsr, hm]
      simpa using hv
    have hmode : (r.State.StatusReg1 &&& 0xF0 ||| (val &&& 0x0E)) &&& 2 ≠ 0 := by
      rw [hsr]
      exact hv
    have h00 : ¬ ((0 : Nat) ≠ 0) := by simp
    simp only [StatusReg1Write, hnr, if_neg h00]
    rw [if_pos htog, if_pos hmode]
  · intro hm hv
    have htog : ((r.State.StatusReg1 &&& 0xF0 ||| (val &&& 0x0E)) ^^^ r.State.StatusReg1) &&& 2 ≠ 0 := by
      rw [Nat.and_xor_distrib_right, hsr, hv]
      simpa using hm
    have hmode : ((r.State.StatusReg1 &&& 0xF0 ||| (val &&& 0x0E)) &&& 2 = 0) := by
      rw [hsr]
      exact hv
    have h00 : ¬ ((0 : Nat) ≠ 0) := by simp
    simp only [StatusReg1Write, hnr, if_neg h00]
    rw [if_pos htog, if_neg (by simpa using hmode)]

/-- Witness for the amended C2 at the concrete session `c2rtc` and status
byte 0x02. -/
theorem statusWrite_hour_mode_conversion_witness :
    (c2rtc.InputPos = 1 ∧ c2rtc.CurCmd &&& 0x0F = 0x06 ∧
     c2rtc.CurCmd &&& 0x70 = 0x00 ∧ (0x02 : Nat) &&& 1 = 0) ∧
    (CmdWrite 0 0x02 c2rtc).State = StatusReg1Write 0x02 c2rtc.State :=
  ⟨by decide,
   (statusWrite_hour_mode_conversion 0 0x02 c2rtc (by decide) (by decide)
      (by decide) (by decide)).1⟩

/-- C3 counterexample: the power-on flag (bit 7 of status register 1) is set
in `c3state`; a status-register-1 write whose byte is 0x01 (reset bit only)
leaves the flag cleared, while the same write without the reset bit
preserves it — so the reset does alter the power-on flag beyond what the
written byte specifies (the write path masks the byte with 0x0E and can
never touch bits 4–7 itself). -/
theorem statusWrite_reset_counterexample :
    c3state.StatusReg1 &&& 0x80 = 0x80 ∧
    (StatusReg1Write 0x01 c3state).StatusReg1 &&& 0x80 = 0 ∧
    (StatusReg1Write 0x00 c3state).StatusReg1 &&& 0x80 = 0x80 ∧
    c3rtc.State.StatusReg1 = 0x80 ∧
    (CmdWrite 0 0x01 c3rtc).State.StatusReg1 = 0x00 :=
  ⟨by decide, by decide, by decide, by decide, by decide⟩

/-- C3 (amended): for every prior register-file state, a status-register-1
write with the reset bit (bit 0) set reinitializes the entire register file
— month = 1, day = 1, every other date/time field zero, alarms and minute
counter cleared — and the resulting status register 1 is exactly
`val & 0x0E`: in particular the whole auto-clearing high nibble, including
the power-on flag, reads as zero afterwards, regardless of its prior
value. -/
theorem statusWrite_reset_reinit (ct val : Nat) (r : RTCState)
    (hpos : r.InputPos = 1) (hcls : r.CurCmd &&& 0x0F = 0x06)
    (hgrp : r.CurCmd &&& 0x70 = 0x00) (hrst : val &&& 1 ≠ 0) :
    (CmdWrite ct val r).State = StatusReg1Write val r.State ∧
    StatusReg1Write val r.State = { ResetState with StatusReg1 := val &&& 0x0E } := by
  constructor
  · simp [CmdWrite, CmdWriteData, hcls, hgrp, hpos]
  · simp only [StatusReg1Write, if_pos hrst]
    repeat' split
    all_goals simp [ResetState, hourTo24, hourTo12, BCDSanitize]

/-- Witness for the amended C3 at the concrete session `c3rtc` and status
byte 0x01. -/
theorem statusWrite_reset_reinit_witness :
    (c3rtc.InputPos = 1 ∧ c3rtc.CurCmd &&& 0x0F = 0x06 ∧
     c3rtc.CurCmd &&& 0x70 = 0x00 ∧ (0x01 : Nat) &&& 1 ≠ 0) ∧
    StatusReg1Write 0x01 c3rtc.State = { ResetState with StatusReg1 := 0x01 &&& 0x0E } :=
  ⟨by decide,
   (statusWrite_reset_reinit 0 0x01 c3rtc (by decide) (by decide)
      (by decide) (by decide)).2⟩

/-- C4: on an hour-level carry, in 24-hour mode (status bit 1 set) the hour
overflows at BCD 0x24, resetting to 0 and cascading into the day counter
(`CountDay`), and otherwise leaves the calendar untouched; in 12-hour mode
the AM/PM flag toggles when the incremented hour reaches 0x12, and the day
counter advances only on the PM-to-AM transition — so starting from
midnight, 24 carries advance the day exactly once (12 carries only set the
PM flag). -/
theorem countHour_rollover (s : StateData) :
    (s.StatusReg1 &&& 2 ≠ 0 →
       (BCDIncrement (s.DateTime4 &&& 0x3F) < 0x24 →
          calPart (CountHour s) = calPart s ∧
          (CountHour s).DateTime4 = BCDIncrement (s.DateTime4 &&& 0x3F) |||
            (if 0x12 ≤ BCDIncrement (s.DateTime4 &&& 0x3F) then 0x40 else 0)) ∧
       (0x24 ≤ BCDIncrement (s.DateTime4 &&& 0x3F) →
          calPart (CountHour s) = calPart (CountDay s) ∧ (CountHour s).DateTime4 = 0)) ∧
    (s.StatusReg1 &&& 2 = 0 →
       (BCDIncrement (s.DateTime4 &&& 0x3F) < 0x12 →
          calPart (CountHour s) = calPart s ∧
          (CountHour s).DateTime4 =
            BCDIncrement (s.DateTime4 &&& 0x3F) ||| (s.DateTime4 &&& 0x40)) ∧
       (0x12 ≤ BCDIncrement (s.DateTime4 &&& 0x3F) →
          (CountHour s).DateTime4 = (s.DateTime4 &&& 0x40) ^^^ 0x40 ∧
          (s.DateTime4 &&& 0x40 = 0 → calPart (CountHour s) = calPart s) ∧
          (s.DateTime4 &&& 0x40 ≠ 0 → calPart (CountHour s) = calPart (CountDay s)))) ∧
    (iterCountHour 24 ResetState).DateTime2 = 0x02 ∧
    (iterCountHour 24 ResetState).DateTime3 = 1 ∧
    (iterCountHour 24 ResetState).DateTime4 = 0 ∧
    (iterCountHour 12 ResetState).DateTime2 = 0x01 ∧
    (iterCountHour 12 ResetState).DateTime4 = 0x40 := by
  refine ⟨?_, ?_, by decide, by decide, by decide, by decide, by decide⟩
  · intro hm
    constructor
    · intro hlt
      simp [CountHour, hm, Nat.not_le.mpr hlt, calPart]
    · intro hge
      simp [CountHour, hm, hge, calPart]
  · intro hm
    constructor
    · intro hlt
      simp [CountHour, hm, Nat.not_le.mpr hlt, calPart]
    · intro hge
      refine ⟨?_, ?_, ?_⟩
      · simp [CountHour, hm, hge]
      · intro hpm
        simp [CountHour, hm, hge, hpm, calPart]
      · intro hpm
        simp [CountHour, hm, hge, hpm, calPart]

/-- Witness for C4 at the reset register file (12-hour mode, midnight). -/
theorem countHour_rollover_witness :
    (ResetState.StatusReg1 &&& 2 = 0 ∧ BCDIncrement (ResetState.DateTime4 &&& 0x3F) < 0x12) ∧
    calPart (CountHour ResetState) = calPart ResetState :=
  ⟨by decide, (((countHour_rollover ResetState).2.1 (by decide)).1 (by decide)).1⟩

/-- C6: a day-field byte delivered through the command processor (command
class 6, group 0x20, third session byte) is sanitized against [0x01, 0x31]
and then the end-of-month check runs immediately at write time: whenever the
stored day exceeds the current month's day count, the day resets to 1 and
the month advances by one BCD increment, cascading into the year when the
month passes 0x12. -/
theorem writeDay_immediate_rollover (ct val : Nat) (r : RTCState) (s : StateData)
    (hcls : r.CurCmd &&& 0x0F = 0x06) (hgrp : r.CurCmd &&& 0x70 = 0x20)
    (hpos : r.InputPos = 3) :
    (CmdWrite ct val r).State = WriteDateTime 3 val r.State ∧
    WriteDateTime 3 val s =
      CheckEndOfMonth { s with DateTime2 := BCDSanitize (val &&& 0x3F) 0x01 0x31 } ∧
    CheckEndOfMonth s =
      (if DaysInMonth s < s.DateTime2 then
         (if 0x12 < BCDIncrement s.DateTime1 then
            { s with DateTime2 := 1, DateTime1 := 0x01, DateTime0 := BCDIncrement s.DateTime0 }
          else { s with DateTime2 := 1, DateTime1 := BCDIncrement s.DateTime1 })
       else s) := by
  refine ⟨?_, rfl, ?_⟩
  · simp [CmdWrite, CmdWriteData, hcls, hgrp, hpos]
  · unfold CheckEndOfMonth CountMonth CountYear
    repeat' split
    all_goals simp_all

/-- Witness for C6 at the concrete session `c6rtc`: writing day byte 0x31
in April (30 days) resets the day to 1 and advances the month to May at
write time. -/
theorem writeDay_immediate_rollover_witness :
    (c6rtc.CurCmd &&& 0x0F = 0x06 ∧ c6rtc.CurCmd &&& 0x70 = 0x20 ∧ c6rtc.InputPos = 3) ∧
    (CmdWrite 0 0x31 c6rtc).State = WriteDateTime 3 0x31 c6rtc.State ∧
    (CmdWrite 0 0x31 c6rtc).State.DateTime2 = 0x01 ∧
    (CmdWrite 0 0x31 c6rtc).State.DateTime1 = 0x05 :=
  ⟨by decide,
   (writeDay_immediate_rollover 0 0x31 c6rtc c6rtc.State
      (by decide) (by decide) (by decide)).1,
   by decide, by decide⟩

/-- C10: every session byte after the first is dispatched to `CmdWrite`
regardless of the decoded command's direction bit; `CmdWrite` ignores bit 7
of the command entirely, so a read-direction command's register group is
still mutated by later bytes exactly as for the corresponding write command.
Concretely, after the read-status-2 command 0xC6 (which immediately copies
status register 2 into the output buffer), a further byte 0x55 overwrites
status register 2. -/
theorem readCmd_write_dispatch (ct val : Nat) (r : RTCState) (hpos : r.InputPos ≠ 0) :
    ByteIn ct val r = CmdWrite ct val r ∧
    (CmdWrite ct val { r with CurCmd := r.CurCmd &&& 0x7F }).State = (CmdWrite ct val r).State ∧
    (ByteIn 0 0xC6 initRTC).CurCmd = 0xC6 ∧
    (ByteIn 0 0xC6 initRTC).Output0 = initRTC.State.StatusReg2 ∧
    (ByteIn 0 0x55 c10mid).State.StatusReg2 = 0x55 := by
  refine ⟨?_, ?_, by decide, by decide, by decide⟩
  · unfold ByteIn
    rw [if_neg hpos]
  · have h1 : (127 : Nat) &&& 15 = 15 := by decide
    have h2 : (127 : Nat) &&& 112 = 112 := by decide
    show CmdWriteData ct val (r.CurCmd &&& 127) r.InputPos r.State =
         CmdWriteData ct val r.CurCmd r.InputPos r.State
    unfold CmdWriteData
    simp only [Nat.and_assoc, h1, h2]

/-- Witness for C10 at the concrete mid-session state `c10mid`. -/
theorem readCmd_write_dispatch_witness :
    (c10mid.InputPos ≠ 0) ∧ ByteIn 0 0x55 c10mid = CmdWrite 0 0x55 c10mid :=
  ⟨by decide, (readCmd_write_dispatch 0 0x55 c10mid (by decide)).1⟩

theorem Write_OutputPos_latch (ct v : Nat) (b : Bool) (r : RTCState) :
    (Write ct v b r).OutputPos = (WriteProto ct (EffVal v b r) r).OutputPos := by
  simp only [Write]
  by_cases h : EffVal v b r &&& 0x0010 ≠ 0
  · rw [if_pos h]
  · rw [if_neg h]

theorem WriteProto_OutputPos (ct w : Nat) (r : RTCState) :
    (WriteProto ct w r).OutputPos = 0 ∨ (WriteProto ct w r).OutputPos = r.OutputPos ∨
    ((WriteProto ct w r).OutputPos = r.OutputPos + 1 ∧ r.OutputPos < 7 ∧ 8 ≤ r.OutputBit + 1 ∧
     w &&& 0x0004 ≠ 0 ∧ r.ioReg &&& 0x0004 ≠ 0 ∧ w &&& 0x0002 = 0 ∧ w &&& 0x0010 = 0) := by
  simp only [WriteProto]
  by_cases c1 : w &&& 0x0004 ≠ 0
  case neg => rw [if_neg c1]; right; left; rfl
  rw [if_pos c1]
  by_cases c2 : r.ioReg &&& 0x0004 = 0
  case pos => rw [if_pos c2]; left; rfl
  rw [if_neg c2]
  by_cases c3 : w &&& 0x0002 = 0
  case neg => rw [if_neg c3]; right; left; rfl
  rw [if_pos c3]
  by_cases c4 : w &&& 0x0010 ≠ 0
  · rw [if_pos c4]
    right
    left
    by_cases c5 : 8 ≤ r.InputBit + 1
    · rw [if_pos c5]
      have hk := (ByteIn_keep ct (if w &&& 0x0001 ≠ 0 then r.Input ||| (1 <<< r.InputBit) else r.Input)
        { r with Input := (if w &&& 0x0001 ≠ 0 then r.Input ||| (1 <<< r.InputBit) else r.Input),
                 InputBit := 0 }).2.1
      dsimp only
      rw [hk]
    · rw [if_neg c5]
  · rw [if_neg c4]
    by_cases c5 : 8 ≤ r.OutputBit + 1
    · rw [if_pos c5]
      by_cases c6 : r.OutputPos < 7
      · right; right
        constructor
        · show (if r.OutputPos < 7 then r.OutputPos + 1 else r.OutputPos) = r.OutputPos + 1
          rw [if_pos c6]
        · exact ⟨c6, c5, c1, c2, c3, by omega⟩
      · right; left
        show (if r.OutputPos < 7 then r.OutputPos + 1 else r.OutputPos) = r.OutputPos
        rw [if_neg c6]
    · rw [if_neg c5]
      right; left
      dsimp only
      split <;> rfl

/-- C9: in every reachable module state the output byte cursor `OutputPos`
is at most 7, so the 8-byte output buffer is never indexed past its end and
the last byte repeats on over-read; moreover a control-register write either
resets the cursor to 0 (session start), leaves it unchanged, or advances it
by exactly one — and it advances only on a chip-selected, clock-low,
read-direction access whose output bit counter wraps at 8, and only while
the cursor is below 7. -/
theorem outputPos_saturates :
    (∀ s : RTCState, Reachable s → s.OutputPos ≤ 7) ∧
    (∀ (ct v : Nat) (b : Bool) (r : RTCState),
      (Write ct v b r).OutputPos = 0 ∨ (Write ct v b r).OutputPos = r.OutputPos ∨
      ((Write ct v b r).OutputPos = r.OutputPos + 1 ∧ r.OutputPos < 7 ∧ 8 ≤ r.OutputBit + 1 ∧
       EffVal v b r &&& 0x0004 ≠ 0 ∧ r.ioReg &&& 0x0004 ≠ 0 ∧ EffVal v b r &&& 0x0002 = 0 ∧
       EffVal v b r &&& 0x0010 = 0)) := by
  have hw : ∀ (ct v : Nat) (b : Bool) (r : RTCState),
      (Write ct v b r).OutputPos = 0 ∨ (Write ct v b r).OutputPos = r.OutputPos ∨
      ((Write ct v b r).OutputPos = r.OutputPos + 1 ∧ r.OutputPos < 7 ∧ 8 ≤ r.OutputBit + 1 ∧
       EffVal v b r &&& 0x0004 ≠ 0 ∧ r.ioReg &&& 0x0004 ≠ 0 ∧ EffVal v b r &&& 0x0002 = 0 ∧
       EffVal v b r &&& 0x0010 = 0) := by
    intro ct v b r
    rw [Write_OutputPos_latch]
    exact WriteProto_OutputPos ct (EffVal v b r) r
  constructor
  · intro s h
    induction h with
    | init => decide
    | @write ct v b s1 hr ih =>
      rcases hw ct v b s1 with h0 | h0 | ⟨h0, hlt, h1⟩ <;> omega
    | tick hr ih => simpa [ClockTimer] using ih
    | reset hr ih => simp [ResetRTC]
  · exact hw

/-- Witness for C9 at the initial state, which is reachable. -/
theorem outputPos_saturates_witness :
    Reachable initRTC ∧ initRTC.OutputPos ≤ 7 :=
  ⟨Reachable.init, outputPos_saturates.1 initRTC Reachable.init⟩

end RTC
